import Mathlib

/-!
Verification development for the jspsych-contrib mediapipe-face-mesh
extension. The repository holds two near-duplicate TypeScript source files:

* src/packages/extension-mediapipe-face-mesh/src/index.ts ("pkg" below)
* src/src/index.ts ("src" below)

Both implement a `MediapipeFacemeshExtension` class with lifecycle hooks
(on_start, on_load, on_finish), a listener registry (add/remove tracking
result callbacks backed by a JS array), a legacy-backend result handler
`onMediaPipeResult` and a modern-backend handler `onFaceLandmarkerResult`.

Numbers are modelled as rationals. The three.js Euler decomposition
`Euler.setFromRotationMatrix` involves transcendental functions, so every
function that uses it is parameterized by an abstract decomposer
`ef : List Rat -> Euler3`; `Vector3.setFromMatrixPosition` is modelled
exactly (it reads elements 12, 13, 14 of the column-major array).
Listeners are modelled by identity as natural numbers; a `throws`
predicate says which listeners raise when invoked, so that the JS
`Array.prototype.forEach` fan-out (which has no try/catch around the
calls in either file) can be modelled faithfully.
-/

set_option autoImplicit false

namespace Facemesh

/-- Euler angles as produced by three.js `Euler` (default order XYZ). -/
structure Euler3 where
  x : Rat
  y : Rat
  z : Rat
  deriving DecidableEq, Repr

/-- A three.js `Vector3`. -/
structure Vec3 where
  x : Rat
  y : Rat
  z : Rat
  deriving DecidableEq, Repr

/-- Blendshape category of the modern tasks-vision API:
`{ categoryName, score }`. -/
structure BlendCategory where
  categoryName : String
  score : Rat
  deriving DecidableEq, Repr

/-- One `Blendshape` entry: `{ categories }`. -/
structure Blendshape where
  categories : List BlendCategory
  deriving DecidableEq, Repr

/-- `FacialTransformationMatrix`: `{ data: number[] }`, 16 numbers
column-major. -/
structure FacialTransformationMatrix where
  data : List Rat
  deriving DecidableEq, Repr

/-- A normalized landmark `{ x, y, z }` (visibility unused by the code). -/
structure Landmark where
  x : Rat
  y : Rat
  z : Rat
  deriving DecidableEq, Repr

/-- `FaceLandmarkerResult` of the modern API; all three fields are
optional in the declaration file, and the code guards each with a
truthiness test on `?.length`. -/
structure FaceLandmarkerResult where
  faceBlendshapes : Option (List Blendshape)
  facialTransformationMatrixes : Option (List FacialTransformationMatrix)
  landmarks : Option (List (List Landmark))
  deriving DecidableEq, Repr

/-- Legacy-API `FaceGeometry`, reduced to the only data the handler reads:
`getPoseTransformMatrix().getPackedDataList()`. -/
structure FaceGeometry where
  poseTransformMatrix : List Rat
  deriving DecidableEq, Repr

/-- Legacy-API `Results` (the `multiFaceLandmarks` field is never read by
the handler, so it is omitted). -/
structure Results where
  multiFaceGeometry : List FaceGeometry
  deriving DecidableEq, Repr

/-- `IFaceTrackingResult`: the record both files emit on the legacy path
and the pkg file emits on the modern path. All fields but `frame_id` are
optional. Blendshapes are (name, score) pairs. -/
structure IFaceTrackingResult where
  frame_id : Nat
  transformation : Option (List Rat)
  rotation : Option Euler3
  translation : Option Vec3
  blendshapes : Option (List (String × Rat))
  deriving DecidableEq, Repr

/-- The `unityData` record emitted by the src file's modern handler: all
fields are always present, `blendshapes` is a JS object keyed by category
name (modelled as an insertion-ordered association list). -/
structure UnityData where
  landmarks : List Rat
  orientation : String
  blendshapes : List (String × Rat)
  rotation : Euler3
  translation : Vec3
  deriving DecidableEq, Repr

/-- three.js `new Vector3().setFromMatrixPosition(m)`: reads elements
12, 13, 14 of the matrix's column-major element array. -/
def posFromMatrix (tm : List Rat) : Vec3 :=
  ⟨tm.getD 12 0, tm.getD 13 0, tm.getD 14 0⟩

/-- The truthiness guard `results.facialTransformationMatrixes?.length`
followed by `results.facialTransformationMatrixes[0].data`: the first
matrix's data when the optional list is present and nonempty. -/
def firstTransform (results : FaceLandmarkerResult) : Option (List Rat) :=
  match results.facialTransformationMatrixes with
  | some (m :: _) => some m.data
  | _ => none

/-- JS object property assignment `obj[k] = {score: v}` on a plain object:
overwrites in place when the key exists, otherwise appends (JS objects
preserve insertion order of string keys). -/
def recordUpsert (m : List (String × Rat)) (k : String) (v : Rat) :
    List (String × Rat) :=
  if m.any (fun p => p.1 == k) then
    m.map (fun p => if p.1 == k then (k, v) else p)
  else
    m ++ [(k, v)]

/-- Record built by `onMediaPipeResult` in the pkg file (lines 168-190)
when `results.multiFaceGeometry[0]` is truthy; `none` when the handler
falls through without emitting. `ef` stands for three.js
`Euler.setFromRotationMatrix`, `frameId` is `this.animationFrameId`. -/
def pkg_onMediaPipeRecord (ef : List Rat → Euler3) (frameId : Nat)
    (results : Results) : Option IFaceTrackingResult :=
  match results.multiFaceGeometry.head? with
  | some g =>
    let tm := g.poseTransformMatrix
    some { frame_id := frameId
           transformation := some tm
           rotation := some (ef tm)
           translation := some (posFromMatrix tm)
           blendshapes := none }
  | none => none

/-- Record built by `onMediaPipeResult` in the src file (lines 163-185);
the two files' legacy handlers are character-for-character the same code. -/
def src_onMediaPipeRecord (ef : List Rat → Euler3) (frameId : Nat)
    (results : Results) : Option IFaceTrackingResult :=
  match results.multiFaceGeometry.head? with
  | some g =>
    let tm := g.poseTransformMatrix
    some { frame_id := frameId
           transformation := some tm
           rotation := some (ef tm)
           translation := some (posFromMatrix tm)
           blendshapes := none }
  | none => none

/-- Record built by `onFaceLandmarkerResult` in the pkg file (lines
195-249): `transformation`, `rotation`, `translation` stay `undefined`
unless a facial transformation matrix is present; `blendshapes` is set
from `faceBlendshapes[0].categories` when present, but the field is put
on the result only when `this.fullTracking === true`. -/
def pkg_onFaceLandmarkerRecord (ef : List Rat → Euler3)
    (fullTracking : Bool) (frameId : Nat)
    (results : FaceLandmarkerResult) : IFaceTrackingResult :=
  let tm? := firstTransform results
  let rotation := tm?.map ef
  let translation := tm?.map posFromMatrix
  let blendshapes :=
    match results.faceBlendshapes with
    | some (b :: _) => some (b.categories.map fun c => (c.categoryName, c.score))
    | _ => none
  if fullTracking then
    { frame_id := frameId
      transformation := tm?
      rotation := rotation
      translation := translation
      blendshapes := blendshapes }
  else
    { frame_id := frameId
      transformation := tm?
      rotation := rotation
      translation := translation
      blendshapes := none }

/-- Record built by `onFaceLandmarkerResult` in the src file (lines
188-230): rotation and translation are initialized to `new Euler()` /
`new Vector3()` (all zeroes) and only overwritten when a transform is
present; landmarks are flattened; blendshapes become a JS object; the
emitted `unityData` negates rotation's x and divides translation by 100,
and has no `frame_id` or `transformation` field. -/
def src_onFaceLandmarkerRecord (ef : List Rat → Euler3)
    (results : FaceLandmarkerResult) : UnityData :=
  let rt :=
    match firstTransform results with
    | some tm => (ef tm, posFromMatrix tm)
    | none => ((⟨0, 0, 0⟩ : Euler3), (⟨0, 0, 0⟩ : Vec3))
  let landmarksFlat :=
    match results.landmarks with
    | some (l :: _) => (l.map fun lm => [lm.x, lm.y, lm.z]).flatten
    | _ => ([] : List Rat)
  let bs :=
    match results.faceBlendshapes with
    | some (b :: _) =>
      b.categories.foldl (fun m c => recordUpsert m c.categoryName c.score) []
    | _ => ([] : List (String × Rat))
  { landmarks := landmarksFlat
    orientation := "front"
    blendshapes := bs
    rotation := ⟨-rt.1.x, rt.1.y, rt.1.z⟩
    translation := ⟨rt.2.x / 100, rt.2.y / 100, rt.2.z / 100⟩ }

/-- JS `Array.prototype.indexOf`: index of the first occurrence, `-1`
when absent. -/
def jsIndexOf (xs : List Nat) (a : Nat) : Int :=
  match xs.indexOf? a with
  | some i => (i : Int)
  | none => -1

/-- JS `Array.prototype.splice(start, 1)`: a negative `start` counts from
the end (clamped at 0), so `splice(-1, 1)` removes the LAST element. -/
def jsSplice1 (xs : List Nat) (start : Int) : List Nat :=
  let len : Int := xs.length
  let actual := (if start < 0 then max (len + start) 0 else min start len).toNat
  xs.take actual ++ xs.drop (actual + 1)

/-- `addTrackingResultCallback` (pkg lines 159-161, src lines 154-156):
unconditionally pushes onto the `onResultCallbacks` array. -/
def addTrackingResultCallback (cbs : List Nat) (callback : Nat) : List Nat :=
  cbs ++ [callback]

/-- `removeTrackingResultCallback` (pkg lines 163-165, src lines 158-160):
`onResultCallbacks.splice(onResultCallbacks.indexOf(callback), 1)`. -/
def removeTrackingResultCallback (cbs : List Nat) (callback : Nat) : List Nat :=
  jsSplice1 cbs (jsIndexOf cbs callback)

/-- `onResultCallbacks.forEach((cb) => cb(result))`: the listeners that
actually get invoked. There is no try/catch, so a throwing listener ends
the iteration; it is itself invoked, later entries are not. -/
def jsForEachCalls (throws : Nat → Bool) : List Nat → List Nat
  | [] => []
  | cb :: rest => if throws cb then [cb] else cb :: jsForEachCalls throws rest

/-- Whether an exception escapes the `forEach` fan-out to its caller
(the backend callback / the frame scheduler). -/
def jsForEachEscapes (throws : Nat → Bool) : List Nat → Bool
  | [] => false
  | cb :: rest => if throws cb then true else jsForEachEscapes throws rest

/-- The all-listeners-return-normally instantiation. -/
def noThrows : Nat → Bool := fun _ => false

theorem jsForEachCalls_noThrows (cbs : List Nat) :
    jsForEachCalls noThrows cbs = cbs := by
  induction cbs with
  | nil => rfl
  | cons cb rest ih => simp [jsForEachCalls, noThrows, ih]

/-- The mutable fields of `MediapipeFacemeshExtension` in the pkg file
that the lifecycle hooks and result handlers touch. `loopScheduled`
models whether a `requestAnimationFrame` loop is pending (set by the
`onloadedmetadata` handler installed by `on_start`, cleared by
`stopAnimationFrame`); `legacyHandlerBound` models whether
`faceMesh.onResults(onMediaPipeResult)` has been bound. -/
structure ExtState where
  recordedChunks : List IFaceTrackingResult
  animationFrameId : Nat
  hasMediaStream : Bool
  usingNewAPI : Bool
  fullTracking : Bool
  onResultCallbacks : List Nat
  recordTracks : Bool
  legacyHandlerBound : Bool
  loopScheduled : Bool
  deriving DecidableEq, Repr

/-- State of a freshly constructed extension instance (field initializers
of the class; `animationFrameId` starts unset, modelled as 0). -/
def initState : ExtState :=
  { recordedChunks := []
    animationFrameId := 0
    hasMediaStream := false
    usingNewAPI := false
    fullTracking := false
    onResultCallbacks := []
    recordTracks := false
    legacyHandlerBound := false
    loopScheduled := false }

/-- `on_start` (pkg lines 88-120): stores the camera stream handle; when
it is absent, logs a warning and returns BEFORE installing the metadata
handler (so no loop gets scheduled) and before binding the legacy result
handler. When the stream is present, the metadata handler cancels any
prior frame request and schedules the loop, and the legacy handler is
bound unless the modern API is in use. -/
def on_start (stream : Bool) (s : ExtState) : ExtState :=
  let s1 := { s with hasMediaStream := stream }
  if stream then
    { s1 with
      loopScheduled := true
      legacyHandlerBound := if s1.usingNewAPI then s1.legacyHandlerBound else true }
  else s1

/-- `on_load` (pkg lines 122-126): resets the log and sets the recording
flag to `params?.record ?? false`. -/
def on_load (record : Option Bool) (s : ExtState) : ExtState :=
  { s with recordedChunks := [], recordTracks := record.getD false }

/-- `on_finish` (pkg lines 128-133): cancels the pending frame request,
clears the recording flag, and returns `{ face_mesh: recordedChunks }`
WITHOUT clearing the accumulated chunks. -/
def on_finish (s : ExtState) : ExtState × List IFaceTrackingResult :=
  ({ s with loopScheduled := false, recordTracks := false }, s.recordedChunks)

/-- The externally triggered events of a session, between lifecycle
hooks: listener registration changes, an asynchronous legacy-backend
result arriving, and a modern-backend frame tick. -/
inductive Event where
  | load (record : Option Bool)
  | start (stream : Bool)
  | addCb (l : Nat)
  | removeCb (l : Nat)
  | legacyResult (r : Results)
  | modernTick (r : FaceLandmarkerResult)
  deriving DecidableEq, Repr

/-- One event step of the pkg extension. A legacy result is handled only
while `onMediaPipeResult` is bound (binding survives `on_finish`); a
modern tick happens only while the frame loop is scheduled and the modern
API is active (each tick also obtains a fresh animation-frame id). The
second component is the list of (listener, record) invocations performed
by the `forEach` fan-out. -/
def step (throws : Nat → Bool) (ef : List Rat → Euler3) (s : ExtState) :
    Event → ExtState × List (Nat × IFaceTrackingResult)
  | Event.load record => (on_load record s, [])
  | Event.start stream => (on_start stream s, [])
  | Event.addCb l =>
    ({ s with onResultCallbacks := addTrackingResultCallback s.onResultCallbacks l }, [])
  | Event.removeCb l =>
    ({ s with onResultCallbacks := removeTrackingResultCallback s.onResultCallbacks l }, [])
  | Event.legacyResult r =>
    if s.legacyHandlerBound then
      match pkg_onMediaPipeRecord ef s.animationFrameId r with
      | some tr =>
        ({ s with recordedChunks :=
             if s.recordTracks then s.recordedChunks ++ [tr] else s.recordedChunks },
         (jsForEachCalls throws s.onResultCallbacks).map fun cb => (cb, tr))
      | none => (s, [])
    else (s, [])
  | Event.modernTick r =>
    if s.loopScheduled && s.usingNewAPI then
      let tr := pkg_onFaceLandmarkerRecord ef s.fullTracking s.animationFrameId r
      ({ s with
           recordedChunks :=
             if s.recordTracks then s.recordedChunks ++ [tr] else s.recordedChunks,
           animationFrameId := s.animationFrameId + 1 },
       (jsForEachCalls throws s.onResultCallbacks).map fun cb => (cb, tr))
    else (s, [])

/-- Run a sequence of events, accumulating every listener invocation. -/
def runEvents (throws : Nat → Bool) (ef : List Rat → Euler3) :
    ExtState → List Event → ExtState × List (Nat × IFaceTrackingResult)
  | s, [] => (s, [])
  | s, e :: rest =>
    let p := step throws ef s e
    let q := runEvents throws ef p.1 rest
    (q.1, p.2 ++ q.2)

/-- Events that can occur in the middle of a trial: everything except the
`on_load` / `on_start` lifecycle hooks. -/
def midTrialEvent : Event → Bool
  | Event.load _ => false
  | Event.start _ => false
  | _ => true

/-! ### Sample inputs used by witnesses and counterexamples -/

/-- A concrete stand-in for the three.js Euler decomposition. -/
def zeroEulerFn : List Rat → Euler3 := fun _ => ⟨0, 0, 0⟩

/-- A second concrete decomposer, used to show independence from the
decomposer when no transform is present. -/
def oneEulerFn : List Rat → Euler3 := fun _ => ⟨1, 0, 0⟩

/-- A modern-backend result for a tick with no detection at all. -/
def emptyLandmarkerResult : FaceLandmarkerResult :=
  { faceBlendshapes := none
    facialTransformationMatrixes := none
    landmarks := none }

/-- A modern-backend result carrying one blendshape category and no
facial transformation matrix. -/
def jawOpenResult : FaceLandmarkerResult :=
  { faceBlendshapes := some [⟨[⟨"jawOpen", 4 / 5⟩]⟩]
    facialTransformationMatrixes := none
    landmarks := none }

/-- A legacy-backend result with one face geometry (zero pose matrix). -/
def geomResults : Results := ⟨[⟨List.replicate 16 0⟩]⟩

/-- The record the legacy handler builds from `geomResults` at frame 0
under `zeroEulerFn`. -/
def sampleLegacyRec : IFaceTrackingResult :=
  { frame_id := 0
    transformation := some (List.replicate 16 0)
    rotation := some ⟨0, 0, 0⟩
    translation := some ⟨0, 0, 0⟩
    blendshapes := none }

/-! ### Invariant lemmas about event runs -/

/-- With no frame loop scheduled and the legacy handler unbound, any
mid-trial event is inert: it keeps both flags down, leaves the log alone
and invokes no listener. -/
theorem step_quiet (throws : Nat → Bool) (ef : List Rat → Euler3)
    (s : ExtState) (e : Event) (hm : midTrialEvent e = true)
    (h1 : s.loopScheduled = false) (h2 : s.legacyHandlerBound = false) :
    (step throws ef s e).1.loopScheduled = false ∧
    (step throws ef s e).1.legacyHandlerBound = false ∧
    (step throws ef s e).1.recordedChunks = s.recordedChunks ∧
    (step throws ef s e).2 = [] := by
  cases e with
  | load r => simp [midTrialEvent] at hm
  | start b => simp [midTrialEvent] at hm
  | addCb l => simp [step, h1, h2]
  | removeCb l => simp [step, h1, h2]
  | legacyResult r => simp [step, h1, h2]
  | modernTick r => simp [step, h1, h2]

/-- `step_quiet` lifted to event sequences. -/
theorem runEvents_quiet (throws : Nat → Bool) (ef : List Rat → Euler3)
    (events : List Event) (s : ExtState)
    (h1 : s.loopScheduled = false) (h2 : s.legacyHandlerBound = false)
    (h3 : ∀ e ∈ events, midTrialEvent e = true) :
    (runEvents throws ef s events).1.loopScheduled = false ∧
    (runEvents throws ef s events).1.legacyHandlerBound = false ∧
    (runEvents throws ef s events).1.recordedChunks = s.recordedChunks ∧
    (runEvents throws ef s events).2 = [] := by
  induction events generalizing s with
  | nil => simp [runEvents, h1, h2]
  | cons e rest ih =>
    obtain ⟨q1, q2, q3, q4⟩ := step_quiet throws ef s e (h3 e (by simp)) h1 h2
    obtain ⟨w1, w2, w3, w4⟩ :=
      ih (step throws ef s e).1 q1 q2 (fun x hx => h3 x (by simp [hx]))
    exact ⟨w1, w2, by rw [runEvents]; rw [w3, q3], by rw [runEvents]; rw [q4, w4]; rfl⟩

/-- With recording off, mid-trial events keep it off and never touch the
log. -/
theorem step_norecord (throws : Nat → Bool) (ef : List Rat → Euler3)
    (s : ExtState) (e : Event) (hm : midTrialEvent e = true)
    (h1 : s.recordTracks = false) :
    (step throws ef s e).1.recordTracks = false ∧
    (step throws ef s e).1.recordedChunks = s.recordedChunks := by
  cases e with
  | load r => simp [midTrialEvent] at hm
  | start b => simp [midTrialEvent] at hm
  | addCb l => simp [step, h1]
  | removeCb l => simp [step, h1]
  | legacyResult r =>
    simp only [step]
    cases hb : s.legacyHandlerBound
    · simp [h1]
    · cases hr : pkg_onMediaPipeRecord ef s.animationFrameId r
      · simp [h1]
      · simp [h1]
  | modernTick r =>
    simp only [step]
    cases hl : s.loopScheduled && s.usingNewAPI
    · simp [h1]
    · simp [h1]

/-- `step_norecord` lifted to event sequences. -/
theorem runEvents_norecord (throws : Nat → Bool) (ef : List Rat → Euler3)
    (events : List Event) (s : ExtState)
    (h1 : s.recordTracks = false)
    (h3 : ∀ e ∈ events, midTrialEvent e = true) :
    (runEvents throws ef s events).1.recordTracks = false ∧
    (runEvents throws ef s events).1.recordedChunks = s.recordedChunks := by
  induction events generalizing s with
  | nil => simp [runEvents, h1]
  | cons e rest ih =>
    obtain ⟨q1, q2⟩ := step_norecord throws ef s e (h3 e (by simp)) h1
    obtain ⟨w1, w2⟩ :=
      ih (step throws ef s e).1 q1 (fun x hx => h3 x (by simp [hx]))
    exact ⟨w1, by rw [runEvents]; rw [w2, q2]⟩

/-- States that agree on everything the fan-out can observe (they may
differ in the accumulated log and the recording flag). -/
def viewEq (s1 s2 : ExtState) : Prop :=
  s1.animationFrameId = s2.animationFrameId ∧
  s1.usingNewAPI = s2.usingNewAPI ∧
  s1.fullTracking = s2.fullTracking ∧
  s1.onResultCallbacks = s2.onResultCallbacks ∧
  s1.legacyHandlerBound = s2.legacyHandlerBound ∧
  s1.loopScheduled = s2.loopScheduled

/-- Every event preserves `viewEq` and produces the same listener
invocations on view-equal states: deliveries never depend on the
recording flag or the log. -/
theorem step_viewEq (throws : Nat → Bool) (ef : List Rat → Euler3)
    (s1 s2 : ExtState) (e : Event) (h : viewEq s1 s2) :
    viewEq (step throws ef s1 e).1 (step throws ef s2 e).1 ∧
    (step throws ef s1 e).2 = (step throws ef s2 e).2 := by
  obtain ⟨hA, hN, hF, hC, hB, hL⟩ := h
  cases e with
  | load r => exact ⟨⟨hA, hN, hF, hC, hB, hL⟩, rfl⟩
  | start b =>
    cases b with
    | false => exact ⟨⟨hA, hN, hF, hC, hB, hL⟩, rfl⟩
    | true =>
      refine ⟨⟨hA, hN, hF, hC, ?_, rfl⟩, rfl⟩
      simp [step, on_start, hN, hB]
  | addCb l =>
    exact ⟨⟨hA, hN, hF, by simp [step, hC], hB, hL⟩, rfl⟩
  | removeCb l =>
    exact ⟨⟨hA, hN, hF, by simp [step, hC], hB, hL⟩, rfl⟩
  | legacyResult r =>
    simp only [step, hA, hB, hC]
    cases hb : s2.legacyHandlerBound with
    | false => simp [viewEq, hA, hN, hF, hC, hB, hL]
    | true =>
      cases hr : pkg_onMediaPipeRecord ef s2.animationFrameId r with
      | none => simp [viewEq, hA, hN, hF, hC, hB, hL]
      | some tr => simp [viewEq, hA, hN, hF, hC, hB, hL]
  | modernTick r =>
    simp only [step, hA, hN, hF, hC, hL]
    cases hl : s2.loopScheduled && s2.usingNewAPI with
    | false => simp [viewEq, hA, hN, hF, hC, hB, hL]
    | true => simp [viewEq, hA, hN, hF, hC, hB, hL]

/-- `step_viewEq` lifted to event sequences. -/
theorem runEvents_viewEq (throws : Nat → Bool) (ef : List Rat → Euler3)
    (events : List Event) (s1 s2 : ExtState) (h : viewEq s1 s2) :
    viewEq (runEvents throws ef s1 events).1 (runEvents throws ef s2 events).1 ∧
    (runEvents throws ef s1 events).2 = (runEvents throws ef s2 events).2 := by
  induction events generalizing s1 s2 with
  | nil => exact ⟨h, rfl⟩
  | cons e rest ih =>
    obtain ⟨q1, q2⟩ := step_viewEq throws ef s1 s2 e h
    obtain ⟨w1, w2⟩ := ih (step throws ef s1 e).1 (step throws ef s2 e).1 q1
    exact ⟨w1, by rw [runEvents, runEvents]; rw [q2, w2]⟩

/-! ### The claims -/

/-- Claim C1 (falsified by the code as a slip): removing a listener that
is not registered is claimed to be a no-op. The code runs
`onResultCallbacks.splice(onResultCallbacks.indexOf(callback), 1)`;
`indexOf` yields -1 for an absent listener and JS `splice(-1, 1)` deletes
the LAST element, so removing the absent listener 3 from the one-listener
registry [7] empties the registry instead of leaving it unchanged (the
call still does not throw: the modelled function is total). -/
theorem C1_remove_absent_listener :
    removeTrackingResultCallback [7] 3 = [] ∧
    removeTrackingResultCallback [7] 3 ≠ [7] := by decide

/-- Claim C2, counterexample: the two files are NOT behaviorally
equivalent. On the same modern-backend result with no detection, the pkg
file's handler emits a record whose rotation is absent, while the src
file's handler emits a Unity-format record whose rotation is present
(zero), so the emitted records differ. -/
theorem C2_modern_handlers_differ :
    (pkg_onFaceLandmarkerRecord zeroEulerFn false 0 emptyLandmarkerResult).rotation ≠
      some (src_onFaceLandmarkerRecord zeroEulerFn emptyLandmarkerResult).rotation := by
  decide

/-- Claim C2 as amended: the equivalence holds on the legacy path — the
two files' `onMediaPipeResult` handlers build identical records on every
backend result — but their modern handlers emit different record shapes
(see the counterexample). -/
theorem C2_legacy_handlers_agree (ef : List Rat → Euler3) (frameId : Nat)
    (results : Results) :
    src_onMediaPipeRecord ef frameId results =
      pkg_onMediaPipeRecord ef frameId results := rfl

/-- Claim C3, counterexample: in the src file's modern handler a tick
with no facial transformation matrix still emits rotation and
translation, defaulted to zero (`new Euler()` / `new Vector3()`), even
under a decomposer that never returns zero. -/
theorem C3_src_defaults_zero :
    (src_onFaceLandmarkerRecord oneEulerFn emptyLandmarkerResult).rotation = ⟨0, 0, 0⟩ ∧
    (src_onFaceLandmarkerRecord oneEulerFn emptyLandmarkerResult).translation = ⟨0, 0, 0⟩ := by
  constructor <;>
    simp [src_onFaceLandmarkerRecord, firstTransform, emptyLandmarkerResult]

/-- Claim C3 as amended: in the pkg file's modern handler the claim
holds — on a tick with no facial transformation matrix the emitted
record omits `transformation`, `rotation` and `translation`, and no
decomposition is performed (the record does not depend on the decomposer
at all); the src file instead always emits rotation and translation,
defaulting them to zero. -/
theorem C3_pkg_omits_fields_without_transform (ef1 ef2 : List Rat → Euler3)
    (ft : Bool) (frameId : Nat) (results : FaceLandmarkerResult)
    (h : firstTransform results = none) :
    (pkg_onFaceLandmarkerRecord ef1 ft frameId results).transformation = none ∧
    (pkg_onFaceLandmarkerRecord ef1 ft frameId results).rotation = none ∧
    (pkg_onFaceLandmarkerRecord ef1 ft frameId results).translation = none ∧
    pkg_onFaceLandmarkerRecord ef1 ft frameId results =
      pkg_onFaceLandmarkerRecord ef2 ft frameId results := by
  cases ft <;> simp [pkg_onFaceLandmarkerRecord, h]

/-- Witness for the amended Claim C3 at a concrete no-detection tick and
two different decomposers. -/
theorem C3_pkg_omits_fields_witness :
    firstTransform emptyLandmarkerResult = none ∧
    ((pkg_onFaceLandmarkerRecord zeroEulerFn false 0 emptyLandmarkerResult).transformation = none ∧
     (pkg_onFaceLandmarkerRecord zeroEulerFn false 0 emptyLandmarkerResult).rotation = none ∧
     (pkg_onFaceLandmarkerRecord zeroEulerFn false 0 emptyLandmarkerResult).translation = none ∧
     pkg_onFaceLandmarkerRecord zeroEulerFn false 0 emptyLandmarkerResult =
       pkg_onFaceLandmarkerRecord oneEulerFn false 0 emptyLandmarkerResult) :=
  ⟨by decide,
   C3_pkg_omits_fields_without_transform zeroEulerFn oneEulerFn false 0
     emptyLandmarkerResult (by decide)⟩

/-- Claim C4, counterexample: the fan-out is a bare
`onResultCallbacks.forEach((cb) => cb(result))` with no try/catch. With
listeners [1, 2] where listener 1 throws, listener 2 — registered after
1 — is never invoked, and the exception escapes to the caller (the
backend callback / frame scheduler). -/
theorem C4_throwing_listener_stops_fanout :
    jsForEachCalls (fun l => l == 1) [1, 2] = [1] ∧
    jsForEachEscapes (fun l => l == 1) [1, 2] = true := by decide

/-- Claim C4 as amended: a throwing listener is itself invoked, every
listener registered before it is invoked, every listener registered
after it is skipped, and the exception propagates out of the fan-out to
the scheduler/backend callback. -/
theorem C4_fanout_truncated_at_thrower (throws : Nat → Bool)
    (pre post : List Nat) (l : Nat)
    (hpre : ∀ c ∈ pre, throws c = false) (hl : throws l = true) :
    jsForEachCalls throws (pre ++ l :: post) = pre ++ [l] ∧
    jsForEachEscapes throws (pre ++ l :: post) = true := by
  induction pre with
  | nil => simp [jsForEachCalls, jsForEachEscapes, hl]
  | cons c rest ih =>
    have hc := hpre c (by simp)
    obtain ⟨w1, w2⟩ := ih (fun x hx => hpre x (by simp [hx]))
    simp [jsForEachCalls, jsForEachEscapes, hc, w1, w2]

/-- Witness for the amended Claim C4: registry [2, 1, 3], listener 1
throws. -/
theorem C4_fanout_truncated_witness :
    (∀ c ∈ ([2] : List Nat), (fun l => l == 1) c = false) ∧
    ((fun l => l == 1) 1 = true) ∧
    (jsForEachCalls (fun l => l == 1) ([2] ++ 1 :: [3]) = [2] ++ [1] ∧
     jsForEachEscapes (fun l => l == 1) ([2] ++ 1 :: [3]) = true) :=
  ⟨by decide, by decide,
   C4_fanout_truncated_at_thrower (fun l => l == 1) [2] [3] 1 (by decide) (by decide)⟩

/-- Claim C5, counterexample: in the src file the modern handler always
writes the blendshapes object onto the emitted record — that file has no
full-tracking flag at all (its `initialize` never reads
`useFullTracking`), so a modern-backend result carries blendshapes even
though no full-tracking flag was set. -/
theorem C5_src_blendshapes_unconditional :
    (src_onFaceLandmarkerRecord zeroEulerFn jawOpenResult).blendshapes =
      [("jawOpen", 4 / 5)] ∧
    (src_onFaceLandmarkerRecord zeroEulerFn jawOpenResult).blendshapes ≠ [] := by
  constructor <;>
    simp [src_onFaceLandmarkerRecord, firstTransform, jawOpenResult, recordUpsert]

/-- Claim C5 as amended: in the pkg file the claim holds — every record
the legacy handler emits has no blendshapes, and every record the modern
handler emits with the full-tracking flag off has no blendshapes; the
src file's modern handler instead attaches blendshapes unconditionally. -/
theorem C5_blendshapes_gating (ef : List Rat → Euler3) (frameId : Nat)
    (legacyResults : Results) (tr : IFaceTrackingResult)
    (modernResults : FaceLandmarkerResult)
    (h : pkg_onMediaPipeRecord ef frameId legacyResults = some tr) :
    tr.blendshapes = none ∧
    (pkg_onFaceLandmarkerRecord ef false frameId modernResults).blendshapes = none := by
  constructor
  · unfold pkg_onMediaPipeRecord at h
    cases hg : legacyResults.multiFaceGeometry.head? <;> rw [hg] at h
    · exact absurd h (by simp)
    · rw [Option.some_inj] at h
      rw [← h]
  · simp [pkg_onFaceLandmarkerRecord]

/-- Witness for the amended Claim C5 at a concrete legacy detection and
a concrete modern result. -/
theorem C5_blendshapes_gating_witness :
    pkg_onMediaPipeRecord zeroEulerFn 0 geomResults = some sampleLegacyRec ∧
    (sampleLegacyRec.blendshapes = none ∧
     (pkg_onFaceLandmarkerRecord zeroEulerFn false 0 jawOpenResult).blendshapes = none) :=
  ⟨by decide,
   C5_blendshapes_gating zeroEulerFn 0 geomResults sampleLegacyRec jawOpenResult (by decide)⟩

/-- A session state holding one recorded chunk (as after a recorded
trial, before any later `on_load`). -/
def sessionWithChunk : ExtState := { initState with recordedChunks := [sampleLegacyRec] }

/-- Claim C6, counterexample: `on_finish` never clears `recordedChunks`
(only `on_load` does), so with one recorded chunk the second consecutive
`on_finish` returns that same non-empty log, not an empty one. Neither
call throws — the modelled hook is total. -/
theorem C6_second_finish_not_empty :
    (on_finish (on_finish sessionWithChunk).1).2 = [sampleLegacyRec] ∧
    (on_finish (on_finish sessionWithChunk).1).2 ≠ [] := by decide

/-- Claim C6 as amended: calling `on_finish` twice in a row never throws,
and the second call returns the SAME log as the first (and leaves the
state exactly where the first call left it); the log is reset only by
`on_load`. -/
theorem C6_second_finish_same_log (s : ExtState) :
    (on_finish (on_finish s).1).2 = (on_finish s).2 ∧
    (on_finish (on_finish s).1).1 = (on_finish s).1 := ⟨rfl, rfl⟩

/-- Claim C7, counterexample: the registry is a plain array filled by
`push`, not an identity-keyed set. Registering listener 5 twice puts it
in the registry twice, and the per-frame `forEach` fan-out then invokes
it twice for the same result. -/
theorem C7_duplicate_registration_double_delivery :
    addTrackingResultCallback (addTrackingResultCallback [] 5) 5 = [5, 5] ∧
    (jsForEachCalls noThrows
        (addTrackingResultCallback (addTrackingResultCallback [] 5) 5)).count 5 = 2 := by
  decide

/-- Claim C7 as amended: the registry is an insertion-ordered list, and
(when no listener throws) every emitted result is delivered once per
registry ENTRY, in registration order — so a listener registered twice
receives the result twice per frame. -/
theorem C7_delivery_per_registration_entry (ef : List Rat → Euler3)
    (s : ExtState) (r : FaceLandmarkerResult)
    (h1 : s.loopScheduled = true) (h2 : s.usingNewAPI = true) :
    (step noThrows ef s (Event.modernTick r)).2 =
      s.onResultCallbacks.map
        (fun cb =>
          (cb, pkg_onFaceLandmarkerRecord ef s.fullTracking s.animationFrameId r)) := by
  simp [step, h1, h2, jsForEachCalls_noThrows]

/-- A capturing modern-backend session whose registry holds listener 5
twice. -/
def dupListenerState : ExtState :=
  { initState with
      usingNewAPI := true
      loopScheduled := true
      onResultCallbacks := [5, 5] }

/-- Witness for the amended Claim C7 on the duplicate-listener state. -/
theorem C7_delivery_witness :
    dupListenerState.loopScheduled = true ∧ dupListenerState.usingNewAPI = true ∧
    (step noThrows zeroEulerFn dupListenerState (Event.modernTick emptyLandmarkerResult)).2 =
      dupListenerState.onResultCallbacks.map
        (fun cb =>
          (cb, pkg_onFaceLandmarkerRecord zeroEulerFn dupListenerState.fullTracking
                 dupListenerState.animationFrameId emptyLandmarkerResult)) :=
  ⟨rfl, rfl,
   C7_delivery_per_registration_entry zeroEulerFn dupListenerState
     emptyLandmarkerResult rfl rfl⟩

/-- Claim C8 (confirmed): in a session whose camera stream is
unavailable at start, `on_start` returns early (it is total — nothing
throws), no frame loop is scheduled, no result listener is ever invoked
over any sequence of mid-trial events, and `on_finish` returns an empty
log. -/
theorem C8_camera_unavailable_session (throws : Nat → Bool)
    (ef : List Rat → Euler3) (p : Option Bool) (events : List Event)
    (s : ExtState)
    (h1 : s.loopScheduled = false) (h2 : s.legacyHandlerBound = false)
    (h3 : ∀ e ∈ events, midTrialEvent e = true) :
    (on_load p (on_start false s)).loopScheduled = false ∧
    (runEvents throws ef (on_load p (on_start false s)) events).2 = [] ∧
    (on_finish (runEvents throws ef (on_load p (on_start false s)) events).1).2 = [] := by
  have hs1 : (on_load p (on_start false s)).loopScheduled = false := by
    simp [on_load, on_start, h1]
  have hs2 : (on_load p (on_start false s)).legacyHandlerBound = false := by
    simp [on_load, on_start, h2]
  have hs3 : (on_load p (on_start false s)).recordedChunks = [] := by
    simp [on_load]
  obtain ⟨w1, w2, w3, w4⟩ := runEvents_quiet throws ef events _ hs1 hs2 h3
  exact ⟨hs1, w4, by simp [on_finish]; rw [w3, hs3]⟩

/-- Witness for Claim C8: fresh instance, recording requested, a
listener registered and both kinds of backend activity attempted. -/
theorem C8_camera_unavailable_witness :
    initState.loopScheduled = false ∧ initState.legacyHandlerBound = false ∧
    (∀ e ∈ [Event.addCb 1, Event.legacyResult geomResults,
            Event.modernTick jawOpenResult], midTrialEvent e = true) ∧
    ((on_load (some true) (on_start false initState)).loopScheduled = false ∧
     (runEvents noThrows zeroEulerFn (on_load (some true) (on_start false initState))
        [Event.addCb 1, Event.legacyResult geomResults,
         Event.modernTick jawOpenResult]).2 = [] ∧
     (on_finish (runEvents noThrows zeroEulerFn
          (on_load (some true) (on_start false initState))
          [Event.addCb 1, Event.legacyResult geomResults,
           Event.modernTick jawOpenResult]).1).2 = []) :=
  ⟨rfl, rfl, by decide,
   C8_camera_unavailable_session noThrows zeroEulerFn (some true)
     [Event.addCb 1, Event.legacyResult geomResults, Event.modernTick jawOpenResult]
     initState rfl rfl (by decide)⟩

/-- Claim C9 (confirmed): with recording disabled and a clean log, any
sequence of mid-trial events leaves the log untouched — `on_finish`
returns the empty log — while the listener invocations are exactly what
they would be with the recording flag set the other way: delivery does
not depend on the recording flag. -/
theorem C9_recording_disabled (ef : List Rat → Euler3) (s : ExtState)
    (events : List Event) (b : Bool)
    (h1 : s.recordTracks = false) (h2 : s.recordedChunks = [])
    (h3 : ∀ e ∈ events, midTrialEvent e = true) :
    (on_finish (runEvents noThrows ef s events).1).2 = [] ∧
    (runEvents noThrows ef { s with recordTracks := b } events).2 =
      (runEvents noThrows ef s events).2 := by
  obtain ⟨w1, w2⟩ := runEvents_norecord noThrows ef events s h1 h3
  refine ⟨by simp [on_finish]; rw [w2, h2], ?_⟩
  exact (runEvents_viewEq noThrows ef events { s with recordTracks := b } s
    ⟨rfl, rfl, rfl, rfl, rfl, rfl⟩).2

/-- A modern-backend capturing session with recording off, one listener
and an empty log. -/
def noRecordState : ExtState :=
  { initState with
      usingNewAPI := true
      loopScheduled := true
      onResultCallbacks := [9] }

/-- Witness for Claim C9: one modern tick under `noRecordState`. -/
theorem C9_recording_disabled_witness :
    noRecordState.recordTracks = false ∧ noRecordState.recordedChunks = [] ∧
    (∀ e ∈ [Event.modernTick jawOpenResult], midTrialEvent e = true) ∧
    ((on_finish (runEvents noThrows zeroEulerFn noRecordState
        [Event.modernTick jawOpenResult]).1).2 = [] ∧
     (runEvents noThrows zeroEulerFn { noRecordState with recordTracks := true }
        [Event.modernTick jawOpenResult]).2 =
       (runEvents noThrows zeroEulerFn noRecordState
          [Event.modernTick jawOpenResult]).2) :=
  ⟨rfl, rfl, by decide,
   C9_recording_disabled zeroEulerFn noRecordState
     [Event.modernTick jawOpenResult] true rfl rfl (by decide)⟩

/-- Claim C10 (confirmed): `on_finish` clears the recording flag and
cancels the loop but leaves the legacy result handler bound and the
listener registry intact, so a stale legacy-backend result arriving
after `on_finish` is still delivered to every registered listener while
the log stays unchanged. -/
theorem C10_stale_legacy_result (ef : List Rat → Euler3) (s : ExtState)
    (r : Results) (tr : IFaceTrackingResult)
    (h1 : s.legacyHandlerBound = true)
    (h2 : pkg_onMediaPipeRecord ef s.animationFrameId r = some tr) :
    (on_finish s).1.onResultCallbacks = s.onResultCallbacks ∧
    (on_finish s).1.legacyHandlerBound = true ∧
    (on_finish s).1.recordTracks = false ∧
    (step noThrows ef (on_finish s).1 (Event.legacyResult r)).2 =
      s.onResultCallbacks.map (fun cb => (cb, tr)) ∧
    (step noThrows ef (on_finish s).1 (Event.legacyResult r)).1.recordedChunks =
      (on_finish s).1.recordedChunks := by
  refine ⟨rfl, by simp [on_finish, h1], rfl, ?_, ?_⟩
  · simp [step, on_finish, h1, h2, jsForEachCalls_noThrows]
  · simp [step, on_finish, h1, h2]

/-- A legacy-backend session that was recording, with one listener, as
left just before `on_finish`. -/
def staleState : ExtState :=
  { initState with
      legacyHandlerBound := true
      loopScheduled := true
      recordTracks := true
      onResultCallbacks := [4] }

/-- Witness for Claim C10: a stale legacy detection after `on_finish` on
`staleState`. -/
theorem C10_stale_legacy_witness :
    staleState.legacyHandlerBound = true ∧
    pkg_onMediaPipeRecord zeroEulerFn staleState.animationFrameId geomResults =
      some sampleLegacyRec ∧
    ((on_finish staleState).1.onResultCallbacks = staleState.onResultCallbacks ∧
     (on_finish staleState).1.legacyHandlerBound = true ∧
     (on_finish staleState).1.recordTracks = false ∧
     (step noThrows zeroEulerFn (on_finish staleState).1 (Event.legacyResult geomResults)).2 =
       staleState.onResultCallbacks.map (fun cb => (cb, sampleLegacyRec)) ∧
     (step noThrows zeroEulerFn (on_finish staleState).1 (Event.legacyResult geomResults)).1.recordedChunks =
       (on_finish staleState).1.recordedChunks) :=
  ⟨rfl, by decide,
   C10_stale_legacy_result zeroEulerFn staleState geomResults sampleLegacyRec
     rfl (by decide)⟩

end Facemesh
